import Mathlib

/-!
Verification of the window-planning and coordination logic of
sharp_frame_extractor/SharpFrameExtractor.py.

The Python coordinator SharpFrameExtractor.extract is embedded as a pure
Lean function over exact rational arithmetic (Python floats are modelled
by ℚ; IEEE rounding is not modelled).  Interaction with the outside world
(cv2.VideoCapture, the filesystem, the worker pool) is modelled by explicit
inputs: a probe record describing what cv2 reports, a flag describing
whether the output directory already exists, and the completion-ordered
list of worker results that pool.imap_unordered yields (one entry per
window, each either a (name, sharpness) pair or None).  The run's
observable behaviour (directory creation, prints, the preview exit(0),
Python ZeroDivisionError crashes, dispatch, and the returned list) is
collected in a trace record.
-/

namespace SFE

/-- Window record: the tuple (i, window_start_ms, window_end_ms) built by the
planning loop of extract (SharpFrameExtractor.py lines 69-78). -/
structure Window where
  index : ℕ
  start_ms : ℚ
  end_ms : ℚ
deriving DecidableEq, Repr

/-- Python step_count = math.floor(video_length_ms / window_size_ms)
(SharpFrameExtractor.py line 59).  Python floor of a float division of
rationals is exactly the rational floor (division by zero is treated
separately in the run model, mirroring ZeroDivisionError). -/
def stepCount (d w : ℚ) : ℤ :=
  ⌊d / w⌋

/-- Window list built by the loop at SharpFrameExtractor.py lines 69-78:
for i in range(0, step_count), start = i*w, end = start + w, except the
last window (i == step_count - 1) whose end is forced to the duration.
Python range(0, k) is empty for k ≤ 0, hence k.toNat. -/
def mkWindows (d w : ℚ) (k : ℤ) : List Window :=
  (List.range k.toNat).map fun i =>
    { index := i
      start_ms := (i : ℚ) * w
      end_ms := if (i : ℤ) = k - 1 then d else (i : ℚ) * w + w }

/-- Python 3 round() on a float: round half to even (banker's rounding).
Used by extract at line 85 as round(cpu_count * 0.25). -/
def pyRound (q : ℚ) : ℤ :=
  let f := ⌊q⌋
  let r := q - (f : ℚ)
  if r < 1/2 then f
  else if 1/2 < r then f + 1
  else if f % 2 = 0 then f else f + 1

/-- Constructor configuration of SharpFrameExtractor (lines 16-31); only the
fields extract reads are modelled. -/
structure ExtractorConfig where
  cpu_count : ℕ
  force_cpu_count : Bool
  extract_all : Bool
  preview : Bool
deriving DecidableEq, Repr

/-- Model of what cv2.VideoCapture reports: whether the source opened, and
the raw CAP_PROP_FPS / CAP_PROP_FRAME_COUNT values (lines 35, 45-46).
When the source is not opened, cv2 property reads return 0, which the run
model applies via fpsEff / fcEff.  frame_count is the int() of a
nonnegative cv2 frame count. -/
structure VideoProbe where
  opened : Bool
  fps : ℚ
  frame_count : ℕ
deriving DecidableEq, Repr

/-- Effective fps read at line 45: cv2 returns 0.0 when the source is not
opened. -/
def fpsEff (p : VideoProbe) : ℚ :=
  if p.opened then p.fps else 0

/-- Effective frame count read at line 46: cv2 returns 0 when the source is
not opened. -/
def fcEff (p : VideoProbe) : ℕ :=
  if p.opened then p.frame_count else 0

/-- video_length_ms = frame_count / float(fps) * 1000 (line 47); only
evaluated by the run model when fps ≠ 0 (otherwise Python raises
ZeroDivisionError). -/
def durationMs (p : VideoProbe) : ℚ :=
  (fcEff p : ℚ) / fpsEff p * 1000

/-- Reassignment of window_size_ms at lines 50-52: when target_frame_count
is positive the window size becomes duration / target_frame_count. -/
def windowAfterTarget (d w : ℚ) (tfc : ℤ) : ℚ :=
  if 0 < tfc then d / (tfc : ℚ) else w

/-- Reassignment of window_size_ms at lines 55-57: extract_all overrides
the window size with duration / frame_count (after the target-frame-count
reassignment, since line 55 runs after line 50). -/
def windowAfterExtractAll (ea : Bool) (d : ℚ) (fc : ℕ) (w : ℚ) : ℚ :=
  if ea then d / (fc : ℚ) else w

/-- Effective window size used for planning: line 50 then line 55. -/
def effWindow (ea : Bool) (d : ℚ) (fc : ℕ) (w : ℚ) (tfc : ℤ) : ℚ :=
  windowAfterExtractAll ea d fc (windowAfterTarget d w tfc)

/-- buffer_size = math.ceil(frame_count / len(windows) * 1.5) (line 82);
only evaluated by the run model when the window list is nonempty
(otherwise Python raises ZeroDivisionError). -/
def bufferSizeOf (fc n : ℕ) : ℤ :=
  ⌈(fc : ℚ) / (n : ℚ) * (3/2)⌉

/-- processor_count (lines 85-88): max(1, min(round(cpu_count * 0.25),
step_count)), overridden verbatim by cpu_count when force_cpu_count. -/
def processorCountOf (cpu : ℕ) (force : Bool) (k : ℤ) : ℤ :=
  if force then (cpu : ℤ) else max 1 (min (pyRound ((cpu : ℚ) * (1/4))) k)

/-- Collection loop over pool.imap_unordered (lines 101-105): skip None
results, keep the name component, in completion order. -/
def resultsOf (completed : List (Option (String × ℚ))) : List String :=
  (completed.filterMap id).map Prod.fst

/-- frames = [result[0] for result in results if result is not None]
(line 109).  results holds strings, so result[0] is the one-character
string holding the first character of each name; it is modelled by
String.take 1 (Python raises IndexError on an empty name, which never
occurs for worker-generated names). -/
def framesOf (results : List String) : List String :=
  results.map fun s => s.take 1

/-- Python exceptions that extract can die with. -/
inductive PyErr where
  | zeroDivisionError
deriving DecidableEq, Repr

/-- Observable trace of one call to extract.  madeDir: os.makedirs ran
(lines 41-42).  reportedPlan: the summary print at line 61 ran.
previewHalt: exit(0) at line 66 ran.  windowsPlanned: the list built by
the loop at lines 69-78, when reached.  bufferSize / processorCount:
lines 82-88, when reached.  dispatched: the pool at lines 93-105 ran.
framesOut: the returned list (line 112).  pyError: the uncaught exception
terminating the call, if any. -/
structure RunTrace where
  madeDir : Bool
  reportedPlan : Bool
  previewHalt : Bool
  windowsPlanned : Option (List Window)
  bufferSize : Option ℤ
  processorCount : Option ℤ
  dispatched : Bool
  framesOut : Option (List String)
  pyError : Option PyErr
deriving DecidableEq, Repr

/-- Shallow embedding of SharpFrameExtractor.extract (lines 33-112).
Arguments: the constructor configuration, what cv2 reports for this
source, whether output_path already exists, the window_size_ms and
target_frame_count arguments, and the completion-ordered worker results
yielded by pool.imap_unordered (one per window).  Returns the observable
trace.  Python ZeroDivisionError points: line 47 (fps = 0), line 56
(extract_all with frame_count = 0), line 59 (window size 0), line 82
(empty window list). -/
def extractModel (cfg : ExtractorConfig) (probe : VideoProbe)
    (outputPathExists : Bool) (window_size_ms : ℚ) (target_frame_count : ℤ)
    (completed : List (Option (String × ℚ))) : RunTrace :=
  let madeDir := !outputPathExists && !cfg.preview
  if fpsEff probe = 0 then
    ⟨madeDir, false, false, none, none, none, false, none, some .zeroDivisionError⟩
  else
    let d := durationMs probe
    let fc := fcEff probe
    let w1 := windowAfterTarget d window_size_ms target_frame_count
    if cfg.extract_all = true ∧ fc = 0 then
      ⟨madeDir, false, false, none, none, none, false, none, some .zeroDivisionError⟩
    else
      let w := windowAfterExtractAll cfg.extract_all d fc w1
      if w = 0 then
        ⟨madeDir, false, false, none, none, none, false, none, some .zeroDivisionError⟩
      else
        let k := stepCount d w
        if cfg.preview then
          ⟨madeDir, true, true, none, none, none, false, none, none⟩
        else
          let ws := mkWindows d w k
          if ws.length = 0 then
            ⟨madeDir, true, false, some ws, none, none, false, none, some .zeroDivisionError⟩
          else
            let b := bufferSizeOf fc ws.length
            let p := processorCountOf cfg.cpu_count cfg.force_cpu_count k
            let frames := framesOf (resultsOf completed)
            ⟨madeDir, true, false, some ws, some b, some p, true, some frames, none⟩

/-! ### Concrete instances used to witness the claims -/

/-- Concrete configuration: cpu budget 16, no force, no extract_all, no
preview. -/
def cfgA : ExtractorConfig := ⟨16, false, false, false⟩

/-- Concrete probe: opened source, 1 fps, 4 frames (duration 4000 ms). -/
def probeA : VideoProbe := ⟨true, 1, 4⟩

/-- Concrete completion-ordered worker results: one per window of runA; two
windows produced a frame, two produced none. -/
def completedA : List (Option (String × ℚ)) :=
  [some ("frame_0001.png", 1/2), none, some ("frame_0002.png", 1/3), none]

/-- Window plan of runA: duration 4000 ms, window 1000 ms. -/
def wsA : List Window :=
  [⟨0, 0, 1000⟩, ⟨1, 1000, 2000⟩, ⟨2, 2000, 3000⟩, ⟨3, 3000, 4000⟩]

/-- Concrete configuration for the degenerate-window run: cpu budget 4, no
flags. -/
def cfgD : ExtractorConfig := ⟨4, false, false, false⟩

/-- Concrete probe for the degenerate-window run: opened source, 1 fps, one
frame (duration 1000 ms), to be paired with window size 2000 ms. -/
def probeD : VideoProbe := ⟨true, 1, 1⟩

/-- Concrete configuration with the preview flag set. -/
def cfgP : ExtractorConfig := ⟨16, false, false, true⟩

/-- Concrete probe reporting a negative frame rate (-1 fps) with 10
frames. -/
def probeN : VideoProbe := ⟨true, -1, 10⟩

/-! ### Helper lemmas about the window planner -/

lemma mkWindows_length (d w : ℚ) (k : ℤ) : (mkWindows d w k).length = k.toNat := by
  simp [mkWindows]

lemma mkWindows_get (d w : ℚ) (k : ℤ) (i : ℕ) (h : i < (mkWindows d w k).length) :
    (mkWindows d w k).get ⟨i, h⟩ =
      ⟨i, (i : ℚ) * w, if (i : ℤ) = k - 1 then d else (i : ℚ) * w + w⟩ := by
  simp [mkWindows]

lemma window_size_pos (d w : ℚ) (hd : 0 < d) (hk : 1 ≤ stepCount d w) : 0 < w := by
  rcases lt_trichotomy w 0 with hneg | hzero | hpos
  · have hdw : d / w < 0 := div_neg_of_pos_of_neg hd hneg
    have : stepCount d w ≤ 0 := Int.floor_nonpos hdw.le
    omega
  · rw [hzero] at hk
    simp [stepCount] at hk
  · exact hpos

lemma stepCount_mul_le (d w : ℚ) (hw : 0 < w) : (stepCount d w : ℚ) * w ≤ d := by
  have h := Int.floor_le (d / w)
  exact (le_div_iff₀ hw).mp h

lemma processorCountOf_eq (cpu : ℕ) (force : Bool) (d weff : ℚ)
    (h : (mkWindows d weff (stepCount d weff)).length ≠ 0) :
    processorCountOf cpu force (stepCount d weff) =
      if force then (cpu : ℤ)
      else max 1 (min (pyRound ((cpu : ℚ) * (1/4)))
        ((mkWindows d weff (stepCount d weff)).length : ℤ)) := by
  have hlen := mkWindows_length d weff (stepCount d weff)
  have hcast : ((mkWindows d weff (stepCount d weff)).length : ℤ) =
      stepCount d weff := by
    rw [hlen] at h ⊢
    omega
  rw [processorCountOf, hcast]

lemma bufferSizeOf_pos (fc n : ℕ) (hfc : 0 < fc) (hn : 0 < n) :
    1 ≤ bufferSizeOf fc n := by
  have h : (0 : ℚ) < (fc : ℚ) / (n : ℚ) * (3/2) := by
    apply mul_pos
    · apply div_pos
      · exact_mod_cast hfc
      · exact_mod_cast hn
    · norm_num
  have := Int.ceil_pos.mpr h
  rw [bufferSizeOf]
  omega

lemma fcEff_ne_zero_of_windows (probe : VideoProbe) (weff : ℚ)
    (h : (mkWindows (durationMs probe) weff
        (stepCount (durationMs probe) weff)).length ≠ 0) :
    fcEff probe ≠ 0 := by
  intro h0
  apply h
  rw [mkWindows_length]
  have hd : durationMs probe = 0 := by
    rw [durationMs, h0]
    norm_num
  rw [stepCount, hd, zero_div, Int.floor_zero]
  rfl

/-- Full evaluation of the model on runA: cpu budget 16, opened 1-fps
4-frame source (duration 4000 ms), missing output directory, window
1000 ms, no target frame count, four completion results of which two are
present.  The directory is created, four windows are planned, buffer size
is ceil(4/4*1.5) = 2, processor count is max(1, min(round(4.0), 4)) = 4,
and the returned list holds the first character of each present name. -/
lemma runA_eval :
    extractModel cfgA probeA false 1000 (-1) completedA =
      ⟨true, true, false, some wsA, some 2, some 4, true, some ["f", "f"], none⟩ := by
  norm_num [extractModel, cfgA, probeA, completedA, wsA, fpsEff, fcEff,
    durationMs, windowAfterTarget, windowAfterExtractAll, stepCount,
    mkWindows, bufferSizeOf, processorCountOf, pyRound, resultsOf, framesOf]
  rw [show Int.toNat 4 = 4 from rfl]
  norm_num [List.range_succ]
  refine ⟨?_, by rfl⟩
  rw [Int.ceil_eq_iff]
  norm_num

/-! ### Claim theorems -/

/-- C1: for every duration d > 0 and window size w with floor(d / w) ≥ 1, the
window list built by extract (mkWindows at the code's step_count) is ordered
by ascending index, contiguous (each window's end_ms is the next one's
start_ms), starts at 0, ends exactly at d, and its half-open windows cover
exactly the interval [0, d). -/
theorem C1_window_coverage (d w : ℚ) (hd : 0 < d) (hk : 1 ≤ stepCount d w) :
    ((mkWindows d w (stepCount d w)).map Window.index =
        List.range (mkWindows d w (stepCount d w)).length) ∧
    List.Chain' (fun a b => a.end_ms = b.start_ms) (mkWindows d w (stepCount d w)) ∧
    (∀ h : 0 < (mkWindows d w (stepCount d w)).length,
        ((mkWindows d w (stepCount d w)).get ⟨0, h⟩).start_ms = 0) ∧
    (∀ h : 0 < (mkWindows d w (stepCount d w)).length,
        ((mkWindows d w (stepCount d w)).get
            ⟨(mkWindows d w (stepCount d w)).length - 1, by omega⟩).end_ms = d) ∧
    (∀ x : ℚ, (0 ≤ x ∧ x < d) ↔
        ∃ wi ∈ mkWindows d w (stepCount d w), wi.start_ms ≤ x ∧ x < wi.end_ms) := by
  have hw : 0 < w := window_size_pos d w hd hk
  set k : ℤ := stepCount d w with hkdef
  have hkw : (k : ℚ) * w ≤ d := stepCount_mul_le d w hw
  have hlen : (mkWindows d w k).length = k.toNat := mkWindows_length d w k
  have hkt : (k.toNat : ℤ) = k := Int.toNat_of_nonneg (by omega)
  refine ⟨?_, ?_, ?_, ?_, ?_⟩
  · rw [mkWindows_length]
    simp only [mkWindows, List.map_map]
    have hco : (Window.index ∘ fun i : ℕ =>
        (⟨i, (i : ℚ) * w, if (i : ℤ) = k - 1 then d else (i : ℚ) * w + w⟩ : Window)) = id := by
      funext i
      rfl
    rw [hco, List.map_id]
  · rw [List.chain'_iff_get]
    intro i hi
    rw [mkWindows_get, mkWindows_get]
    have hi2 : (i : ℤ) < k - 1 := by
      rw [hlen] at hi
      omega
    simp only [if_neg (by omega : ¬((i : ℤ) = k - 1))]
    show (i : ℚ) * w + w = ((i + 1 : ℕ) : ℚ) * w
    push_cast
    ring
  · intro h
    rw [mkWindows_get]
    simp
  · intro h
    rw [hlen] at h
    rw [mkWindows_get]
    show (if ((((mkWindows d w k).length - 1 : ℕ)) : ℤ) = k - 1 then d
        else (((mkWindows d w k).length - 1 : ℕ) : ℚ) * w + w) = d
    rw [if_pos (by rw [hlen]; omega)]
  · intro x
    constructor
    · rintro ⟨hx0, hxd⟩
      have hxw : 0 ≤ x / w := div_nonneg hx0 hw.le
      have hfl0 : 0 ≤ ⌊x / w⌋ := Int.floor_nonneg.mpr hxw
      by_cases hcase : ⌊x / w⌋ < k - 1
      · have hmlt : (⌊x / w⌋).toNat < (mkWindows d w k).length := by
          rw [hlen]
          omega
        refine ⟨(mkWindows d w k).get ⟨(⌊x / w⌋).toNat, hmlt⟩, List.get_mem _ _ _, ?_⟩
        rw [mkWindows_get]
        have hcast : (((⌊x / w⌋).toNat : ℕ) : ℚ) = ((⌊x / w⌋ : ℤ) : ℚ) := by
          exact_mod_cast congrArg (fun z : ℤ => (z : ℚ)) (Int.toNat_of_nonneg hfl0)
        constructor
        · show (((⌊x / w⌋).toNat : ℕ) : ℚ) * w ≤ x
          rw [hcast]
          exact (le_div_iff₀ hw).mp (Int.floor_le (x / w))
        · show x < (if (((⌊x / w⌋).toNat : ℕ) : ℤ) = k - 1 then d
              else (((⌊x / w⌋).toNat : ℕ) : ℚ) * w + w)
          rw [if_neg (by omega : ¬((((⌊x / w⌋).toNat : ℕ) : ℤ) = k - 1))]
          have hlt := (div_lt_iff₀ hw).mp (Int.lt_floor_add_one (x / w))
          rw [hcast]
          push_cast at hlt ⊢
          linarith
      · have hmlt : k.toNat - 1 < (mkWindows d w k).length := by
          rw [hlen]
          omega
        refine ⟨(mkWindows d w k).get ⟨k.toNat - 1, hmlt⟩, List.get_mem _ _ _, ?_⟩
        rw [mkWindows_get]
        constructor
        · show (((k.toNat - 1 : ℕ)) : ℚ) * w ≤ x
          have h1 : ((k : ℚ) - 1) ≤ x / w := by
            have h2 : (k - 1 : ℤ) ≤ ⌊x / w⌋ := by omega
            calc (k : ℚ) - 1 = ((k - 1 : ℤ) : ℚ) := by push_cast; ring
            _ ≤ ((⌊x / w⌋ : ℤ) : ℚ) := by exact_mod_cast h2
            _ ≤ x / w := Int.floor_le _
          have h3 := (le_div_iff₀ hw).mp h1
          have hcast : (((k.toNat - 1 : ℕ)) : ℚ) = (k : ℚ) - 1 := by
            have h4 : ((k.toNat - 1 : ℕ) : ℤ) = k - 1 := by omega
            calc (((k.toNat - 1 : ℕ)) : ℚ) = (((k.toNat - 1 : ℕ) : ℤ) : ℚ) := by push_cast; ring
            _ = ((k - 1 : ℤ) : ℚ) := by rw [h4]
            _ = (k : ℚ) - 1 := by push_cast; ring
          rw [hcast]
          linarith
        · show x < (if (((k.toNat - 1 : ℕ)) : ℤ) = k - 1 then d
              else (((k.toNat - 1 : ℕ)) : ℚ) * w + w)
          rw [if_pos (by omega : (((k.toNat - 1 : ℕ)) : ℤ) = k - 1)]
          exact hxd
    · rintro ⟨wi, hmem, hs, he⟩
      simp only [mkWindows, List.mem_map, List.mem_range] at hmem
      obtain ⟨i, hik, rfl⟩ := hmem
      simp only at hs he
      have hge : (0 : ℚ) ≤ (i : ℚ) * w := mul_nonneg (Nat.cast_nonneg i) hw.le
      refine ⟨by linarith, ?_⟩
      by_cases hieq : (i : ℤ) = k - 1
      · rw [if_pos hieq] at he
        exact he
      · rw [if_neg hieq] at he
        have hik2 : (i : ℤ) < k := by omega
        have hile : (i : ℤ) + 1 ≤ k := by omega
        have hileQ : ((i : ℚ) + 1) ≤ (k : ℚ) := by exact_mod_cast hile
        have h5 : ((i : ℚ) + 1) * w ≤ (k : ℚ) * w :=
          mul_le_mul_of_nonneg_right hileQ hw.le
        nlinarith

/-- Witness for C1 at the spec's own example: duration 1000 ms, window
300 ms (three whole windows, the last clamped to 1000). -/
theorem C1_window_coverage_witness :
    (0 : ℚ) < 1000 ∧ 1 ≤ stepCount 1000 300 ∧
    (∀ x : ℚ, (0 ≤ x ∧ x < 1000) ↔
        ∃ wi ∈ mkWindows 1000 300 (stepCount 1000 300),
          wi.start_ms ≤ x ∧ x < wi.end_ms) :=
  ⟨by norm_num, by norm_num [stepCount],
    (C1_window_coverage 1000 300 (by norm_num) (by norm_num [stepCount])).2.2.2.2⟩

/-- C5: planning under TargetFrameCount(n) (n > 0) yields the same number of
windows as planning under FixedWindowSize(d / n) (they are literally the
same window size after line 51), and planning under ExtractAll
(window size d / frame_count, line 56) yields exactly frame_count windows
(arithmetic modelled exactly over ℚ). -/
theorem C5_policy_window_counts (d w : ℚ) (n : ℤ) (fc : ℕ)
    (hd : d ≠ 0) (hn : 0 < n) (hfc : 0 < fc) :
    (mkWindows d (windowAfterTarget d w n)
        (stepCount d (windowAfterTarget d w n))).length =
      (mkWindows d (d / (n : ℚ)) (stepCount d (d / (n : ℚ)))).length ∧
    (mkWindows d (d / (fc : ℚ)) (stepCount d (d / (fc : ℚ)))).length = fc := by
  constructor
  · rw [windowAfterTarget, if_pos hn]
  · have hfcQ : ((fc : ℚ)) ≠ 0 := Nat.cast_ne_zero.mpr (by omega)
    have hq : d / (d / (fc : ℚ)) = (fc : ℚ) := by
      field_simp
    rw [mkWindows_length, stepCount, hq, Int.floor_natCast]
    simp

/-- Witness for C5 at d = 4000, w = 1000, n = 4, fc = 4. -/
theorem C5_policy_window_counts_witness :
    (4000 : ℚ) ≠ 0 ∧ (0 : ℤ) < 4 ∧ (0 : ℕ) < 4 ∧
    ((mkWindows 4000 (windowAfterTarget 4000 1000 4)
        (stepCount 4000 (windowAfterTarget 4000 1000 4))).length =
      (mkWindows 4000 ((4000 : ℚ) / ((4 : ℤ) : ℚ))
        (stepCount 4000 ((4000 : ℚ) / ((4 : ℤ) : ℚ)))).length ∧
    (mkWindows 4000 ((4000 : ℚ) / ((4 : ℕ) : ℚ))
        (stepCount 4000 ((4000 : ℚ) / ((4 : ℕ) : ℚ)))).length = 4) :=
  ⟨by norm_num, by norm_num, by norm_num,
    C5_policy_window_counts 4000 1000 4 4 (by norm_num) (by norm_num) (by norm_num)⟩

/-- C9: when extract_all is set and target_frame_count > 0, the extract_all
reassignment (line 55, running after line 50) wins: the effective window
size used for planning is duration / frame_count, not
duration / target_frame_count (whenever those two differ). -/
theorem C9_extract_all_precedence (d : ℚ) (fc : ℕ) (w : ℚ) (tfc : ℤ)
    (_htfc : 0 < tfc) :
    effWindow true d fc w tfc = d / (fc : ℚ) ∧
    (d / (fc : ℚ) ≠ d / (tfc : ℚ) →
      effWindow true d fc w tfc ≠ d / (tfc : ℚ)) := by
  constructor
  · rw [effWindow, windowAfterExtractAll, if_pos rfl]
  · intro hne
    rw [effWindow, windowAfterExtractAll, if_pos rfl]
    exact hne

/-- Witness for C9 at d = 4000, fc = 8, w = 1000, tfc = 4. -/
theorem C9_extract_all_precedence_witness :
    (0 : ℤ) < 4 ∧
    (effWindow true 4000 8 1000 4 = (4000 : ℚ) / ((8 : ℕ) : ℚ) ∧
      ((4000 : ℚ) / ((8 : ℕ) : ℚ) ≠ (4000 : ℚ) / ((4 : ℤ) : ℚ) →
        effWindow true 4000 8 1000 4 ≠ (4000 : ℚ) / ((4 : ℤ) : ℚ))) :=
  ⟨by norm_num, C9_extract_all_precedence 4000 8 1000 4 (by norm_num)⟩

/-- C6: whenever a run reaches dispatch (so buffer_size at line 82 was
computed), the buffer capacity equals ceil(frame_count / window_count * 1.5)
and is at least 1 (arithmetic modelled exactly over ℚ). -/
theorem C6_buffer_capacity (cfg : ExtractorConfig) (probe : VideoProbe)
    (pe : Bool) (w : ℚ) (tfc : ℤ) (completed : List (Option (String × ℚ)))
    (b : ℤ) (ws : List Window)
    (hb : (extractModel cfg probe pe w tfc completed).bufferSize = some b)
    (hws : (extractModel cfg probe pe w tfc completed).windowsPlanned = some ws) :
    b = bufferSizeOf (fcEff probe) ws.length ∧ 1 ≤ b := by
  simp only [extractModel] at hb hws
  split_ifs at hb hws with h1 h2 h3 h4 h5 <;>
    simp only [Option.some_inj] at hb hws
  subst hb hws
  have hfc : fcEff probe ≠ 0 :=
    fcEff_ne_zero_of_windows probe _ h5
  exact ⟨rfl, bufferSizeOf_pos _ _ (by omega) (by omega)⟩

/-- C2 (code bug evidence): on runA, whose two present worker results carry
the names "frame_0001.png" and "frame_0002.png", extract returns
["f", "f"] — the first character of each name, because line 109 indexes
the name strings with result[0] — rather than the frame_name strings
themselves, and it returns only that list (the elapsed wall-clock time is
printed at line 111, never returned). -/
theorem C2_return_value_eval :
    (extractModel cfgA probeA false 1000 (-1) completedA).framesOut =
      some ["f", "f"] ∧
    (extractModel cfgA probeA false 1000 (-1) completedA).framesOut ≠
      some ["frame_0001.png", "frame_0002.png"] := by
  rw [runA_eval]
  exact ⟨rfl, by decide⟩

/-- C4: whenever a run reaches the dispatch stage (processor_count at lines
85-88 was computed with a planned window list), the worker count is
max(1, min(round(cpu_count * 0.25), window_count)) when force_cpu_count is
unset (round is Python's round-half-to-even), and exactly cpu_count when
force_cpu_count is set. -/
theorem C4_processor_count (cfg : ExtractorConfig) (probe : VideoProbe)
    (pe : Bool) (w : ℚ) (tfc : ℤ) (completed : List (Option (String × ℚ)))
    (p : ℤ) (ws : List Window)
    (hp : (extractModel cfg probe pe w tfc completed).processorCount = some p)
    (hws : (extractModel cfg probe pe w tfc completed).windowsPlanned = some ws) :
    (cfg.force_cpu_count = false →
      p = max 1 (min (pyRound ((cfg.cpu_count : ℚ) * (1/4))) (ws.length : ℤ))) ∧
    (cfg.force_cpu_count = true → p = (cfg.cpu_count : ℤ)) := by
  simp only [extractModel] at hp hws
  split_ifs at hp hws with h1 h2 h3 h4 h5 <;>
    simp only [Option.some_inj] at hp hws
  subst hp hws
  rw [processorCountOf_eq _ _ _ _ h5]
  constructor
  · intro hf
    rw [hf]
    simp
  · intro hf
    rw [hf]
    simp

/-- Witness for C4 on runA: window_count = 4, cpu budget 16, force unset,
worker count 4 (the spec's own example numbers). -/
theorem C4_processor_count_witness :
    (cfgA.force_cpu_count = false →
      (4 : ℤ) = max 1 (min (pyRound ((cfgA.cpu_count : ℚ) * (1/4))) (wsA.length : ℤ))) ∧
    (cfgA.force_cpu_count = true → (4 : ℤ) = (cfgA.cpu_count : ℤ)) :=
  C4_processor_count cfgA probeA false 1000 (-1) completedA 4 wsA
    (by rw [runA_eval]) (by rw [runA_eval])

/-- Witness for C6 on runA: buffer capacity 2 = ceil(4/4 * 1.5) ≥ 1. -/
theorem C6_buffer_capacity_witness :
    (2 : ℤ) = bufferSizeOf (fcEff probeA) wsA.length ∧ (1 : ℤ) ≤ 2 :=
  C6_buffer_capacity cfgA probeA false 1000 (-1) completedA 2 wsA
    (by rw [runA_eval]) (by rw [runA_eval])

/-- C10: each planned window contributes zero or one entry to the collected
results (the collection loop at lines 101-105 appends at most one name per
completion result, and imap_unordered yields exactly one completion result
per window), so the returned list is at most as long as the window plan. -/
theorem C10_result_count_bound (cfg : ExtractorConfig) (probe : VideoProbe)
    (pe : Bool) (w : ℚ) (tfc : ℤ) (completed : List (Option (String × ℚ)))
    (fr : List String) (ws : List Window)
    (hf : (extractModel cfg probe pe w tfc completed).framesOut = some fr)
    (hws : (extractModel cfg probe pe w tfc completed).windowsPlanned = some ws)
    (hlen : completed.length = ws.length) :
    fr.length ≤ ws.length := by
  simp only [extractModel] at hf hws
  split_ifs at hf hws with h1 h2 h3 h4 h5 <;>
    simp only [Option.some_inj] at hf hws
  subst hf hws
  rw [← hlen]
  calc (framesOf (resultsOf completed)).length
      = (completed.filterMap id).length := by simp [framesOf, resultsOf]
  _ ≤ completed.length := List.length_filterMap_le _ _

/-- Witness for C10 on runA: 2 returned entries for 4 planned windows. -/
theorem C10_result_count_bound_witness :
    (["f", "f"] : List String).length ≤ wsA.length :=
  C10_result_count_bound cfgA probeA false 1000 (-1) completedA ["f", "f"] wsA
    (by rw [runA_eval]) (by rw [runA_eval]) (by rfl)

/-- C3 counterexample: duration 1000 ms (1 fps, 1 frame), window size
2000 ms, output directory missing, preview unset.  floor(1000/2000) = 0 < 1,
yet the output directory is created (line 41 runs before any window
arithmetic) — so the run does have a side effect — and the failure is an
unhandled ZeroDivisionError at buffer sizing (line 82), not a
DegenerateWindowPlan error (no such error exists in the code). -/
theorem C3_degenerate_counterexample :
    stepCount (durationMs probeD)
      (effWindow cfgD.extract_all (durationMs probeD) (fcEff probeD) 2000 (-1)) < 1 ∧
    (extractModel cfgD probeD false 2000 (-1) []).madeDir = true ∧
    (extractModel cfgD probeD false 2000 (-1) []).pyError =
      some .zeroDivisionError ∧
    (extractModel cfgD probeD false 2000 (-1) []).dispatched = false := by
  norm_num [extractModel, cfgD, probeD, fpsEff, fcEff, durationMs, effWindow,
    windowAfterTarget, windowAfterExtractAll, stepCount, mkWindows]

/-- C3 amended: for a non-preview run with usable fps, nonzero effective
window size (and not extract_all on an empty video), when floor(duration /
window) < 1 the planned window list is empty and the run dies with an
unhandled ZeroDivisionError at buffer sizing (line 82) before any
extraction is dispatched and returns nothing — but the output directory is
still created first whenever it does not already exist (line 41). -/
theorem C3_degenerate_amended (cfg : ExtractorConfig) (probe : VideoProbe)
    (pe : Bool) (w : ℚ) (tfc : ℤ) (completed : List (Option (String × ℚ)))
    (hpre : cfg.preview = false)
    (hfps : fpsEff probe ≠ 0)
    (hea : ¬(cfg.extract_all = true ∧ fcEff probe = 0))
    (hw : effWindow cfg.extract_all (durationMs probe) (fcEff probe) w tfc ≠ 0)
    (hk : stepCount (durationMs probe)
        (effWindow cfg.extract_all (durationMs probe) (fcEff probe) w tfc) < 1) :
    extractModel cfg probe pe w tfc completed =
      ⟨!pe, true, false, some [], none, none, false, none,
        some .zeroDivisionError⟩ := by
  simp only [effWindow] at hw hk
  have hnil : mkWindows (durationMs probe)
      (windowAfterExtractAll cfg.extract_all (durationMs probe) (fcEff probe)
        (windowAfterTarget (durationMs probe) w tfc))
      (stepCount (durationMs probe)
        (windowAfterExtractAll cfg.extract_all (durationMs probe) (fcEff probe)
          (windowAfterTarget (durationMs probe) w tfc))) = [] := by
    rw [mkWindows, show (stepCount (durationMs probe)
        (windowAfterExtractAll cfg.extract_all (durationMs probe) (fcEff probe)
          (windowAfterTarget (durationMs probe) w tfc))).toNat = 0 from by omega]
    rfl
  simp [extractModel, hpre, hfps, hea, hw, hnil]

/-- Witness for C3 amended on the degenerate run (duration 1000 ms, window
2000 ms, missing output directory). -/
theorem C3_degenerate_amended_witness :
    extractModel cfgD probeD false 2000 (-1) [] =
      ⟨true, true, false, some [], none, none, false, none,
        some .zeroDivisionError⟩ :=
  C3_degenerate_amended cfgD probeD false 2000 (-1) []
    (by rfl)
    (by norm_num [fpsEff, probeD])
    (by simp [cfgD])
    (by norm_num [effWindow, windowAfterExtractAll, windowAfterTarget, cfgD])
    (by norm_num [stepCount, durationMs, fpsEff, fcEff, probeD, cfgD, effWindow,
      windowAfterExtractAll, windowAfterTarget])

/-- C7 counterexample: a preview run (opened 1-fps 4-frame source, window
1000 ms).  The run halts via exit(0) at line 66, but buffer and worker
sizing (lines 82-88) are never computed, and the window list itself is
never built — contradicting the claim that preview reports the window plan
and the worker/buffer sizing. -/
theorem C7_preview_counterexample :
    (extractModel cfgP probeA false 1000 (-1) []).previewHalt = true ∧
    (extractModel cfgP probeA false 1000 (-1) []).bufferSize = none ∧
    (extractModel cfgP probeA false 1000 (-1) []).processorCount = none ∧
    (extractModel cfgP probeA false 1000 (-1) []).windowsPlanned = none := by
  norm_num [extractModel, cfgP, probeA, fpsEff, fcEff, durationMs,
    windowAfterTarget, windowAfterExtractAll, stepCount]

/-- C7 amended: with preview set (and usable fps and a nonzero effective
window size), the run prints the plan summary (line 61) and halts via
exit(0) right after step_count is computed: it computes no window list, no
buffer size and no worker count, creates no output directory, dispatches
nothing, and returns nothing, with no Python error. -/
theorem C7_preview_amended (cfg : ExtractorConfig) (probe : VideoProbe)
    (pe : Bool) (w : ℚ) (tfc : ℤ) (completed : List (Option (String × ℚ)))
    (hpre : cfg.preview = true)
    (hfps : fpsEff probe ≠ 0)
    (hea : ¬(cfg.extract_all = true ∧ fcEff probe = 0))
    (hw : effWindow cfg.extract_all (durationMs probe) (fcEff probe) w tfc ≠ 0) :
    extractModel cfg probe pe w tfc completed =
      ⟨false, true, true, none, none, none, false, none, none⟩ := by
  simp only [effWindow] at hw
  simp [extractModel, hpre, hfps, hea, hw]

/-- Witness for C7 amended on the preview run. -/
theorem C7_preview_amended_witness :
    extractModel cfgP probeA false 1000 (-1) [] =
      ⟨false, true, true, none, none, none, false, none, none⟩ :=
  C7_preview_amended cfgP probeA false 1000 (-1) []
    (by rfl)
    (by norm_num [fpsEff, probeA])
    (by simp [cfgP])
    (by norm_num [effWindow, windowAfterExtractAll, windowAfterTarget, cfgP])

/-- C8 counterexample: an opened source reporting fps = -1 (frame rate ≤ 0)
with 10 frames, window 1000 ms.  The failure is neither SourceUnavailable
nor InvalidMetadata (neither exists in the code), and it is not raised
before window planning: the planning loop runs and yields an empty list
(negative duration), after which line 82 dies with ZeroDivisionError. -/
theorem C8_probe_counterexample :
    probeN.fps < 0 ∧
    (extractModel cfgA probeN false 1000 (-1) []).windowsPlanned = some [] ∧
    (extractModel cfgA probeN false 1000 (-1) []).pyError =
      some .zeroDivisionError := by
  norm_num [extractModel, cfgA, probeN, fpsEff, fcEff, durationMs,
    windowAfterTarget, windowAfterExtractAll, stepCount, mkWindows]

/-- C8 amended: (a) when the source cannot be opened, or the reported fps
is 0, cv2's zero readings make line 47 die with ZeroDivisionError — before
any window planning or dispatch, but after the output directory is created
when missing and preview is unset; (b) when the reported fps is negative
(positive frame count, positive window size, no target/extract-all
override, preview unset), planning runs, produces an empty window list,
and the run dies with ZeroDivisionError at buffer sizing without
dispatching.  No SourceUnavailable or InvalidMetadata error exists. -/
theorem C8_probe_failures_amended (cfg : ExtractorConfig) (probe : VideoProbe)
    (pe : Bool) (w : ℚ) (tfc : ℤ) (completed : List (Option (String × ℚ))) :
    ((probe.opened = false ∨ fpsEff probe = 0) →
      extractModel cfg probe pe w tfc completed =
        ⟨!pe && !cfg.preview, false, false, none, none, none, false, none,
          some .zeroDivisionError⟩) ∧
    (probe.opened = true → probe.fps < 0 → 0 < probe.frame_count →
      0 < w → tfc ≤ 0 → cfg.extract_all = false → cfg.preview = false →
      (extractModel cfg probe pe w tfc completed).windowsPlanned = some [] ∧
      (extractModel cfg probe pe w tfc completed).pyError =
        some .zeroDivisionError ∧
      (extractModel cfg probe pe w tfc completed).dispatched = false) := by
  constructor
  · intro h
    have hfps0 : fpsEff probe = 0 := by
      rcases h with h | h
      · rw [fpsEff, if_neg (by simp [h])]
      · exact h
    simp [extractModel, hfps0]
  · intro hopen hfneg hfc hwpos htfc heaf hpre
    have hfps : fpsEff probe = probe.fps := by
      rw [fpsEff, if_pos hopen]
    have hfps0 : fpsEff probe ≠ 0 := by
      rw [hfps]
      exact ne_of_lt hfneg
    have hfcE : fcEff probe = probe.frame_count := by
      rw [fcEff, if_pos hopen]
    have hdneg : durationMs probe < 0 := by
      rw [durationMs, hfps, hfcE]
      have h1 : (0 : ℚ) < (probe.frame_count : ℚ) := by exact_mod_cast hfc
      have h2 : (probe.frame_count : ℚ) / probe.fps < 0 :=
        div_neg_of_pos_of_neg h1 hfneg
      nlinarith
    have hwe : windowAfterExtractAll cfg.extract_all (durationMs probe)
        (fcEff probe) (windowAfterTarget (durationMs probe) w tfc) = w := by
      rw [windowAfterExtractAll, windowAfterTarget,
        if_neg (by omega : ¬(0 < tfc)), if_neg (by simp [heaf])]
    have hw0 : ¬(windowAfterExtractAll cfg.extract_all (durationMs probe)
        (fcEff probe) (windowAfterTarget (durationMs probe) w tfc) = 0) := by
      rw [hwe]
      exact ne_of_gt hwpos
    have heacond : ¬(cfg.extract_all = true ∧ fcEff probe = 0) := by
      simp [heaf]
    have hnil : mkWindows (durationMs probe)
        (windowAfterExtractAll cfg.extract_all (durationMs probe) (fcEff probe)
          (windowAfterTarget (durationMs probe) w tfc))
        (stepCount (durationMs probe)
          (windowAfterExtractAll cfg.extract_all (durationMs probe) (fcEff probe)
            (windowAfterTarget (durationMs probe) w tfc))) = [] := by
      have hk : stepCount (durationMs probe)
          (windowAfterExtractAll cfg.extract_all (durationMs probe) (fcEff probe)
            (windowAfterTarget (durationMs probe) w tfc)) ≤ 0 := by
        rw [hwe, stepCount]
        exact Int.floor_nonpos (le_of_lt (div_neg_of_neg_of_pos hdneg hwpos))
      rw [mkWindows, show (stepCount (durationMs probe)
          (windowAfterExtractAll cfg.extract_all (durationMs probe) (fcEff probe)
            (windowAfterTarget (durationMs probe) w tfc))).toNat = 0 from by omega]
      rfl
    refine ⟨?_, ?_, ?_⟩ <;>
      simp [extractModel, hfps0, heacond, hw0, hpre, hnil]

/-- Witness for C8 amended at an unopened source (cv2 reports fps 0, frame
count 0): ZeroDivisionError at line 47, before planning, with the output
directory created. -/
theorem C8_probe_failures_amended_witness :
    extractModel cfgA ⟨false, 0, 0⟩ false 1000 (-1) [] =
      ⟨!false && !cfgA.preview, false, false, none, none, none, false, none,
        some .zeroDivisionError⟩ :=
  (C8_probe_failures_amended cfgA ⟨false, 0, 0⟩ false 1000 (-1) []).1
    (Or.inl rfl)

end SFE
